import Mathlib

/-!
Verification of the CryptoAnalyst asset-resolution and gated-pipeline
subsystem.  The definitions below are a shallow embedding of the Python
sources:

  * `src/agentic/data/crypto_assets.py` — the asset catalog, sector index,
    misspelling index, legacy ticker table and their accessor functions;
  * `src/agentic/workflows/enhanced_asset_extraction_workflow.py` — the
    eight pipeline stages of the enhanced workflow;
  * `src/agentic/workflows/crypto_analysis_workflow.py` — the placeholder
    ticker resolver `_extract_ticker_from_text`;
  * `src/agentic/workflows/ai_enhanced_workflow.py` — the AI ticker
    extraction stage, which validates tickers with `is_valid_ticker`.

Modelling conventions.  Python dictionaries are ordered association lists
(`alistGet`/`alistSet`); Python floats are rationals (every numeric literal
in the sources is an exact decimal, written here with `mkRat`/`dec2`);
`dict.get(k)` misses are `Option.none`; the in-place mutation of the shared
`GlobalState` dict is explicit state passing; a call to the external
language model is an explicit `Except` argument whose `.error` case stands
for any exception raised inside the corresponding `try` block (network
failure, malformed JSON, missing keys) and whose `.ok` case carries the
parsed, well-formed response.  The current UTC timestamp is an explicit
`now` argument.  The heterogeneous per-stage `metadata` sub-dicts of log
messages and Python float formatting (`:.2f`, `str(float)`) are abstracted:
no claim depends on them.  Leading underscores of Python method names are
dropped.
-/

namespace CryptoAnalyst

/-- The exact decimal `n/100` as a rational: `dec2 99` is the source
literal `0.99`. -/
def dec2 (n : Int) : ℚ := mkRat n 100

/-- Python's `str.upper()` restricted to the ASCII texts used by the data
tables (Python and Lean agree on ASCII). -/
def pyUpper (s : String) : String := ⟨s.data.map Char.toUpper⟩

/-- Python's `str.lower()` restricted to ASCII texts. -/
def pyLower (s : String) : String := ⟨s.data.map Char.toLower⟩

/-- Contiguous-sublist test on character lists. -/
def charsContains (needle : List Char) : List Char → Bool
  | [] => needle.isEmpty
  | c :: rest => needle.isPrefixOf (c :: rest) || charsContains needle rest

/-- Python's substring test `needle in hay`. -/
def pyContains (hay needle : String) : Bool := charsContains needle.data hay.data

/-- Python's ASCII whitespace (what `str.strip()` removes). -/
def pyIsSpace (c : Char) : Bool :=
  c.toNat == 32 || c.toNat == 9 || c.toNat == 10 || c.toNat == 13 ||
  c.toNat == 11 || c.toNat == 12

/-- Python's `str.strip()`. -/
def pyStrip (s : String) : String :=
  ⟨((s.data.dropWhile pyIsSpace).reverse.dropWhile pyIsSpace).reverse⟩

/-- Python's `str.replace(c, "")` for a one-character pattern, i.e. delete
every occurrence of the character with code point `code`. -/
def pyDeleteChar (code : Nat) (s : String) : String :=
  ⟨s.data.filter (fun c => !(c.toNat == code))⟩

/-- The Python `repr` of a list of strings, as interpolated into log
messages (`['BTC', 'ETH']`). -/
def pyReprStrList (xs : List String) : String :=
  "[" ++ String.intercalate ", " (xs.map (fun t => "\x27" ++ t ++ "\x27")) ++ "]"

/-- `dict.get(k)` on an ordered association list (first binding wins; keys
are unique in all the modelled dicts). -/
def alistGet (l : List (String × α)) (k : String) : Option α :=
  (l.find? (fun p => p.1 == k)).map (·.2)

/-- `d[k] = v` on an ordered association list, with Python-dict semantics:
an existing key keeps its position, a new key is appended at the end. -/
def alistSet (l : List (String × α)) (k : String) (v : α) : List (String × α) :=
  if (l.find? (fun p => p.1 == k)).isSome then
    l.map (fun p => if p.1 == k then (k, v) else p)
  else l ++ [(k, v)]

/-- One value dict of `CRYPTO_ASSETS`.  The `sectors` key is absent for
some assets in the source; `asset.get("sectors", [])` makes absence equal
to the empty list, which is how it is modelled.  The optional
`collision_candidates` key is only ever tested for presence (in
`should_trigger_hitl`), so it is an `Option`. -/
structure AssetInfo where
  name : String
  aliases : List String
  confidence : ℚ
  sectors : List String := []
  collision_candidates : Option (List String) := none
deriving Repr, DecidableEq

/-- `CRYPTO_ASSETS` from `src/agentic/data/crypto_assets.py`. -/
def CRYPTO_ASSETS : List (String × AssetInfo) :=
  [ ("BTC", { name := "Bitcoin", aliases := ["bitcoin", "btc", "king", "king of crypto"], confidence := dec2 99 }),
    ("ETH", { name := "Ethereum", aliases := ["ethereum", "eth", "etherium", "smart contract platform"], confidence := dec2 98 }),
    ("ADA", { name := "Cardano", aliases := ["cardano", "ada"], confidence := dec2 95 }),
    ("DOT", { name := "Polkadot", aliases := ["polkadot", "dot", "internet of blockchains"], confidence := dec2 95 }),
    ("LINK", { name := "Chainlink", aliases := ["chainlink", "link", "oracle network"], confidence := dec2 94 }),
    ("UNI", { name := "Uniswap", aliases := ["uniswap", "uni", "dex token"], confidence := dec2 93 }),
    ("LTC", { name := "Litecoin", aliases := ["litecoin", "ltc"], confidence := dec2 92 }),
    ("BCH", { name := "Bitcoin Cash", aliases := ["bitcoin cash", "bch"], confidence := dec2 91 }),
    ("SOL", { name := "Solana", aliases := ["solana", "sol"], confidence := dec2 96 }),
    ("MATIC", { name := "Polygon", aliases := ["polygon", "matic"], confidence := dec2 94 }),
    ("AVAX", { name := "Avalanche", aliases := ["avalanche", "avax"], confidence := dec2 93 }),
    ("ATOM", { name := "Cosmos", aliases := ["cosmos", "atom"], confidence := dec2 92 }),
    ("ALGO", { name := "Algorand", aliases := ["algorand", "algo"], confidence := dec2 90 }),
    ("XLM", { name := "Stellar", aliases := ["stellar", "xlm"], confidence := dec2 89 }),
    ("VET", { name := "VeChain", aliases := ["vechain", "vet"], confidence := dec2 88 }),
    ("FET", { name := "Fetch.ai", aliases := ["fetch.ai", "fetch", "fet"], confidence := dec2 85, sectors := ["AI"] }),
    ("NEAR", { name := "NEAR Protocol", aliases := ["near protocol", "near"], confidence := dec2 87, sectors := ["AI", "Layer1"] }),
    ("RNDR", { name := "Render", aliases := ["render", "rndr"], confidence := dec2 86, sectors := ["AI", "Compute"] }),
    ("OCEAN", { name := "Ocean Protocol", aliases := ["ocean protocol", "ocean"], confidence := dec2 84, sectors := ["AI", "Data"] }),
    ("AGIX", { name := "SingularityNET", aliases := ["singularitynet", "agix"], confidence := dec2 83, sectors := ["AI"] }),
    ("AAVE", { name := "Aave", aliases := ["aave"], confidence := dec2 92, sectors := ["DeFi"] }),
    ("COMP", { name := "Compound", aliases := ["compound", "comp"], confidence := dec2 91, sectors := ["DeFi"] }),
    ("SUSHI", { name := "SushiSwap", aliases := ["sushiswap", "sushi"], confidence := dec2 89, sectors := ["DeFi"] }),
    ("AXS", { name := "Axie Infinity", aliases := ["axie infinity", "axs"], confidence := dec2 88, sectors := ["Gaming"] }),
    ("MANA", { name := "Decentraland", aliases := ["decentraland", "mana"], confidence := dec2 87, sectors := ["Gaming", "Metaverse"] }),
    ("PEPE", { name := "Pepe", aliases := ["pepe"], confidence := dec2 80, sectors := ["Meme"] }),
    ("DOGE", { name := "Dogecoin", aliases := ["dogecoin", "doge"], confidence := dec2 85, sectors := ["Meme"] }),
    ("SHIB", { name := "Shiba Inu", aliases := ["shiba inu", "shib"], confidence := dec2 84, sectors := ["Meme"] }),
    ("USDT", { name := "Tether", aliases := ["tether", "usdt"], confidence := dec2 96, sectors := ["Stablecoin"] }),
    ("USDC", { name := "USD Coin", aliases := ["usd coin", "usdc"], confidence := dec2 95, sectors := ["Stablecoin"] }),
    ("DAI", { name := "Dai", aliases := ["dai"], confidence := dec2 94, sectors := ["Stablecoin"] }),
    ("ARB", { name := "Arbitrum", aliases := ["arbitrum", "arb"], confidence := dec2 93, sectors := ["Layer2"] }),
    ("OP", { name := "Optimism", aliases := ["optimism", "op"], confidence := dec2 92, sectors := ["Layer2"] }),
    ("IMX", { name := "Immutable", aliases := ["immutable", "imx"], confidence := dec2 90, sectors := ["Layer2", "Gaming"] }) ]

/-- `SECTOR_MAPPINGS` from `src/agentic/data/crypto_assets.py`.  Note the
mixed-case keys: only the key `"AI"` is all uppercase. -/
def SECTOR_MAPPINGS : List (String × List String) :=
  [ ("AI", ["FET", "NEAR", "RNDR", "OCEAN", "AGIX"]),
    ("DeFi", ["AAVE", "COMP", "SUSHI", "UNI"]),
    ("Gaming", ["AXS", "MANA", "IMX"]),
    ("Layer1", ["BTC", "ETH", "SOL", "ADA", "DOT", "AVAX"]),
    ("Layer2", ["ARB", "OP", "MATIC"]),
    ("Meme", ["PEPE", "DOGE", "SHIB"]),
    ("Stablecoin", ["USDT", "USDC", "DAI"]) ]

/-- `MISSPELLINGS` from `src/agentic/data/crypto_assets.py`. -/
def MISSPELLINGS : List (String × String) :=
  [ ("etherium", "ETH"),
    ("bitcon", "BTC"),
    ("solana", "SOL"),
    ("polkadot", "DOT"),
    ("chainlink", "LINK"),
    ("uniswap", "UNI"),
    ("litecoin", "LTC"),
    ("bitcoin cash", "BCH"),
    ("polygon", "MATIC"),
    ("avalanche", "AVAX"),
    ("cosmos", "ATOM"),
    ("algorand", "ALGO"),
    ("stellar", "XLM"),
    ("vechain", "VET") ]

/-- `CRYPTO_TICKERS` from `src/agentic/data/crypto_assets.py` (legacy
name-to-ticker table, 15 entries). -/
def CRYPTO_TICKERS : List (String × String) :=
  [ ("Bitcoin", "BTC"),
    ("Ethereum", "ETH"),
    ("Cardano", "ADA"),
    ("Polkadot", "DOT"),
    ("Chainlink", "LINK"),
    ("Uniswap", "UNI"),
    ("Litecoin", "LTC"),
    ("Bitcoin Cash", "BCH"),
    ("Solana", "SOL"),
    ("Polygon", "MATIC"),
    ("Avalanche", "AVAX"),
    ("Cosmos", "ATOM"),
    ("Algorand", "ALGO"),
    ("Stellar", "XLM"),
    ("VeChain", "VET") ]

/-- `get_asset_by_ticker`: `CRYPTO_ASSETS.get(ticker.upper(), {})`; the
empty-dict miss result is `none`. -/
def get_asset_by_ticker (ticker : String) : Option AssetInfo :=
  alistGet CRYPTO_ASSETS (pyUpper ticker)

/-- `get_assets_by_sector`: `SECTOR_MAPPINGS.get(sector.upper(), [])`. -/
def get_assets_by_sector (sector : String) : List String :=
  (alistGet SECTOR_MAPPINGS (pyUpper sector)).getD []

/-- `is_stablecoin`: `"Stablecoin" in get_asset_by_ticker(t).get("sectors", [])`;
on a lookup miss the Python code reads `.get("sectors", [])` of the empty
dict, hence `false`. -/
def is_stablecoin (ticker : String) : Bool :=
  match get_asset_by_ticker ticker with
  | none => false
  | some asset => asset.sectors.contains "Stablecoin"

/-- `get_confidence_threshold`: the fixed HITL confidence threshold 0.85. -/
def get_confidence_threshold : ℚ := dec2 85

/-- `should_trigger_hitl(confidence, asset_info)`. -/
def should_trigger_hitl (confidence : ℚ) (asset_info : AssetInfo) : Bool :=
  if confidence < get_confidence_threshold then true
  else if asset_info.sectors.contains "Meme" then true
  else if asset_info.collision_candidates.isSome then true
  else false

/-- `get_available_tickers`: the value list of `CRYPTO_TICKERS`. -/
def get_available_tickers : List String := CRYPTO_TICKERS.map (·.2)

/-- `is_valid_ticker`: membership in `get_available_tickers()`. -/
def is_valid_ticker (ticker : String) : Bool :=
  get_available_tickers.contains ticker

/-- The hard-coded `common_tickers` list of `_extract_ticker_from_text` in
`crypto_analysis_workflow.py`. -/
def common_tickers : List String :=
  ["BTC", "ETH", "ADA", "DOT", "LINK", "UNI", "LTC", "BCH"]

/-- `_extract_ticker_from_text` from `crypto_analysis_workflow.py`: return
the first ticker of `common_tickers` whose lowercase form occurs as a
substring of the lowercased text, else the `"BTC"` fallback. -/
def extract_ticker_from_text (text : String) : String :=
  (common_tickers.find? (fun t => pyContains (pyLower text) (pyLower t))).getD "BTC"

/-- One entry of the state's message log.  Every log entry written by the
workflows has the keys `role`, `agent`, `content`, `timestamp` (plus, for
some stages, a heterogeneous `metadata` sub-dict that is abstracted away;
no claim depends on it).  The initial user message has no `agent` key,
modelled as the empty string. -/
structure Message where
  role : String
  agent : String
  content : String
  timestamp : String
deriving Repr, DecidableEq

/-- One asset dict of the extractor response / of `state["extracted_assets"]`.
The workflows read `asset.get("ticker", "")`, `asset.get("name", "")` and
`asset.get("confidence", 0)`, which the field defaults mirror. -/
structure ExtractedAsset where
  ticker : String := ""
  name : String := ""
  confidence : ℚ := 0
deriving Repr, DecidableEq

/-- The parsed JSON object returned by the language-model asset-extraction
chain of the enhanced workflow.  Field defaults are the `.get` defaults the
agent applies (`asset_data.get("mode", "asset_specific")`, etc.). -/
structure AssetData where
  extracted_assets : List ExtractedAsset := []
  mode : String := "asset_specific"
  meta : List (String × String) := []
  parse_notes : String := ""
  hitl_required : Bool := false
  hitl_reason : String := ""
deriving Repr, DecidableEq

/-- A `{timestamp, price, volume}` price record. -/
structure PricePoint where
  timestamp : String
  price : ℚ
  volume : ℚ
deriving Repr, DecidableEq

/-- A news article record. -/
structure NewsArticle where
  title : String
  content : String
  source : String
  sentiment : String
  timestamp : String
deriving Repr, DecidableEq

/-- The shared mutable state dict (`GlobalState` TypedDict plus the extra
keys the enhanced workflow writes into it).  Python reads absent keys with
`.get(key, default)`; the field defaults mirror those defaults, so a fresh
record models a request state where only `messages` has been filled in. -/
structure GlobalState where
  ticker : String := ""
  extracted_assets : List ExtractedAsset := []
  analysis_mode : String := "asset_specific"
  analysis_meta : List (String × String) := []
  parse_notes : String := ""
  hitl_required : Bool := false
  hitl_reason : String := ""
  asset_warnings : List String := []
  price_history : List PricePoint := []
  all_price_data : List (String × List PricePoint) := []
  technical_indicators : List (String × ℚ) := []
  all_technical_indicators : List (String × List (String × ℚ)) := []
  news_articles : List NewsArticle := []
  all_news : List (String × List NewsArticle) := []
  sentiment_scores : List (String × ℚ) := []
  all_sentiment : List (String × List (String × ℚ)) := []
  comprehensive_report : String := ""
  risk_profile : List (String × String) := []
  messages : List Message := []
deriving Repr, DecidableEq

/-- The BTC fallback entry the enhanced extraction agent stores when the
extraction chain fails: `[{"ticker": "BTC", "name": "Bitcoin",
"confidence": 0.5}]`. -/
def fallback_asset : ExtractedAsset :=
  { ticker := "BTC", name := "Bitcoin", confidence := dec2 50 }

/-- `_enhanced_asset_extraction_agent` from
`enhanced_asset_extraction_workflow.py`.  `resp` is the outcome of the
`try` block up to and including JSON parsing: `.ok` carries the parsed
response, `.error` any raised exception rendered as text. -/
def enhanced_asset_extraction_agent (resp : Except String AssetData)
    (now : String) (s : GlobalState) : GlobalState :=
  match resp with
  | .ok d =>
      -- primary_ticker = "BTC" unless the response's asset list is non-empty
      let primary := ((d.extracted_assets.head?).map (·.ticker)).getD "BTC"
      { s with
        ticker := primary,
        extracted_assets := d.extracted_assets,
        analysis_mode := d.mode,
        analysis_meta := d.meta,
        parse_notes := d.parse_notes,
        hitl_required := d.hitl_required,
        hitl_reason := d.hitl_reason,
        messages := s.messages ++
          [{ role := "agent", agent := "enhanced_asset_extraction",
             content := "Enhanced AI extracted " ++ toString d.extracted_assets.length
               ++ " assets: " ++ pyReprStrList (d.extracted_assets.map (·.ticker)),
             timestamp := now }] }
  | .error _e =>
      { s with
        ticker := "BTC",
        extracted_assets := [fallback_asset],
        analysis_mode := "asset_specific",
        hitl_required := true,
        hitl_reason := "extraction_error",
        messages := s.messages ++
          [{ role := "agent", agent := "enhanced_asset_extraction",
             content := "Asset extraction failed, using fallback: BTC",
             timestamp := now }] }

/-- `_human_in_the_loop_agent`: appends either the skip notice or an
advisory message chosen by `hitl_reason`; never blocks. -/
def human_in_the_loop_agent (now : String) (s : GlobalState) : GlobalState :=
  if !s.hitl_required then
    { s with messages := s.messages ++
        [{ role := "agent", agent := "human_in_the_loop",
           content := "No human intervention required, proceeding with analysis",
           timestamp := now }] }
  else
    let tickers := pyReprStrList (s.extracted_assets.map (·.ticker))
    let content :=
      if s.hitl_reason == "confidence_low" then
        "Low confidence in asset extraction. Extracted: " ++ tickers ++ ". Proceeding with analysis."
      else if s.hitl_reason == "ambiguous_asset" then
        "Ambiguous asset detected. Extracted: " ++ tickers ++ ". Proceeding with analysis."
      else if s.hitl_reason == "sector_request" then
        "Sector request detected. Representative assets: " ++ tickers ++ ". Proceeding with analysis."
      else
        "Human-in-the-loop required for: " ++ s.hitl_reason ++ ". Proceeding with analysis."
    { s with messages := s.messages ++
        [{ role := "agent", agent := "human_in_the_loop",
           content := content, timestamp := now }] }

/-- The body of the `for asset in extracted_assets` loop of
`_asset_validation_agent`: append the stablecoin, low-confidence and meme
warnings for one asset, in that order, to the accumulated warning list. -/
def validation_step (acc : List String) (asset : ExtractedAsset) : List String :=
  let acc1 :=
    if is_stablecoin asset.ticker then
      acc ++ ["Stablecoin detected: " ++ asset.ticker ++ " - Technical analysis may not be meaningful"]
    else acc
  let acc2 :=
    if asset.confidence < dec2 85 then
      acc1 ++ ["Low confidence in " ++ asset.ticker ++ ": " ++ toString asset.confidence]
    else acc1
  let meme :=
    match get_asset_by_ticker asset.ticker with
    | some info => info.sectors.contains "Meme"
    | none => false
  if meme then
    acc2 ++ ["Meme coin detected: " ++ asset.ticker ++ " - High volatility expected"]
  else acc2

/-- `_asset_validation_agent`: the warning loop, iterating the resolved
assets in order, then one log message. -/
def asset_validation_agent (now : String) (s : GlobalState) : GlobalState :=
  let warnings := s.extracted_assets.foldl validation_step []
  { s with
    asset_warnings := warnings,
    messages := s.messages ++
      [{ role := "agent", agent := "asset_validation",
         content := "Asset validation complete. Warnings: " ++ toString warnings.length,
         timestamp := now }] }

/-- `_fetch_price_data` of the enhanced workflow (placeholder data). -/
def fetch_price_data (_ticker : String) : List PricePoint :=
  [ { timestamp := "2024-01-01", price := 45000, volume := 1000000 },
    { timestamp := "2024-01-02", price := 46000, volume := 1100000 },
    { timestamp := "2024-01-03", price := 44000, volume := 900000 } ]

/-- `_price_retrieval_agent` of the enhanced workflow. -/
def price_retrieval_agent (now : String) (s : GlobalState) : GlobalState :=
  let all := s.extracted_assets.foldl
    (fun d a => alistSet d a.ticker (fetch_price_data a.ticker)) []
  { s with
    price_history := (alistGet all s.ticker).getD [],
    all_price_data := all,
    messages := s.messages ++
      [{ role := "agent", agent := "price_retrieval",
         content := "Retrieved price data for " ++ toString s.extracted_assets.length ++ " assets",
         timestamp := now }] }

/-- `_calculate_technical_indicators` of the enhanced workflow
(placeholder data; 65.5 is `mkRat 655 10`, 0.0023 is `mkRat 23 10000`). -/
def calculate_technical_indicators (_price_history : List PricePoint) : List (String × ℚ) :=
  [ ("rsi", mkRat 655 10),
    ("macd", mkRat 23 10000),
    ("bollinger_upper", 47000),
    ("bollinger_lower", 43000),
    ("sma_20", 45000),
    ("ema_12", 45200) ]

/-- `_technical_analysis_agent` of the enhanced workflow. -/
def technical_analysis_agent (now : String) (s : GlobalState) : GlobalState :=
  let all := s.all_price_data.foldl
    (fun d p => alistSet d p.1 (calculate_technical_indicators p.2)) []
  { s with
    technical_indicators := (alistGet all s.ticker).getD [],
    all_technical_indicators := all,
    messages := s.messages ++
      [{ role := "agent", agent := "technical_analysis",
         content := "Calculated technical indicators for " ++ toString all.length ++ " assets",
         timestamp := now }] }

/-- `_fetch_news_articles` of the enhanced workflow (placeholder data). -/
def fetch_news_articles (ticker : String) : List NewsArticle :=
  [ { title := "Major development for " ++ ticker,
      content := "Significant news about " ++ ticker ++ " cryptocurrency...",
      source := "CryptoNews", sentiment := "positive",
      timestamp := "2024-01-01T10:00:00Z" } ]

/-- `_news_retrieval_agent` of the enhanced workflow. -/
def news_retrieval_agent (now : String) (s : GlobalState) : GlobalState :=
  let all := s.extracted_assets.foldl
    (fun d a => alistSet d a.ticker (fetch_news_articles a.ticker)) []
  { s with
    news_articles := (alistGet all s.ticker).getD [],
    all_news := all,
    messages := s.messages ++
      [{ role := "agent", agent := "news_retrieval",
         content := "Retrieved news for " ++ toString s.extracted_assets.length ++ " assets",
         timestamp := now }] }

/-- `_analyze_sentiment` of the enhanced workflow (placeholder data). -/
def analyze_sentiment (_news : List NewsArticle) : List (String × ℚ) :=
  [ ("overall_sentiment", mkRat 65 100),
    ("positive_ratio", mkRat 6 10),
    ("negative_ratio", mkRat 2 10),
    ("neutral_ratio", mkRat 2 10),
    ("confidence", dec2 85) ]

/-- `_sentiment_analysis_agent` of the enhanced workflow. -/
def sentiment_analysis_agent (now : String) (s : GlobalState) : GlobalState :=
  let all := s.all_news.foldl
    (fun d p => alistSet d p.1 (analyze_sentiment p.2)) []
  { s with
    sentiment_scores := (alistGet all s.ticker).getD [],
    all_sentiment := all,
    messages := s.messages ++
      [{ role := "agent", agent := "sentiment_analysis",
         content := "Analyzed sentiment for " ++ toString all.length ++ " assets",
         timestamp := now }] }

/-- `_generate_comprehensive_report` of the enhanced workflow (number
formatting abstracted via `toString`). -/
def generate_comprehensive_report (assets : List ExtractedAsset)
    (mode : String) (warnings : List String) : String :=
  "# Comprehensive Crypto Analysis Report\n\n"
    ++ "**Analysis Mode:** " ++ mode ++ "\n"
    ++ "**Assets Analyzed:** " ++ toString assets.length ++ "\n\n"
    ++ (if warnings.isEmpty then ""
        else "## ⚠️ Warnings\n"
          ++ warnings.foldl (fun acc w => acc ++ "- " ++ w ++ "\n") "" ++ "\n")
    ++ "## 📊 Asset Summary\n"
    ++ assets.foldl (fun acc a =>
        acc ++ "- **" ++ a.ticker ++ "** (" ++ a.name ++ "): Confidence "
          ++ toString a.confidence ++ "\n") ""
    ++ "\n## 📈 Technical Analysis\nTechnical indicators calculated for all assets.\n\n"
    ++ "## 📰 Sentiment Analysis\nSentiment analysis completed for all assets.\n\n"
    ++ "## 💡 Recommendations\nBased on comprehensive analysis of all extracted assets.\n"

/-- `_comprehensive_reporter_agent` of the enhanced workflow. -/
def comprehensive_reporter_agent (now : String) (s : GlobalState) : GlobalState :=
  let report := generate_comprehensive_report s.extracted_assets s.analysis_mode s.asset_warnings
  { s with
    comprehensive_report := report,
    messages := s.messages ++
      [{ role := "agent", agent := "comprehensive_reporter",
         content := report, timestamp := now }] }

/-- `user_input` as every extraction agent computes it:
`state.get("messages", [{}])[-1].get("content", "") if state.get("messages") else ""`. -/
def last_user_input (s : GlobalState) : String :=
  ((s.messages.getLast?).map (·.content)).getD ""

/-- The cleanup the AI ticker extraction agent applies to the raw LLM
reply: `strip`, delete `"` (code 34) and `'` (code 39), `strip` again. -/
def clean_ticker_reply (raw : String) : String :=
  pyStrip (pyDeleteChar 39 (pyDeleteChar 34 (pyStrip raw)))

/-- `_ai_ticker_extraction_agent` from `ai_enhanced_workflow.py`: clean the
LLM reply, replace anything failing `is_valid_ticker` by the BTC fallback,
store the ticker and log one message. -/
def ai_ticker_extraction_agent (resp : Except String String)
    (now : String) (s : GlobalState) : GlobalState :=
  let ticker :=
    match resp with
    | .ok raw =>
        let t := clean_ticker_reply raw
        if is_valid_ticker t then t else "BTC"
    | .error _ => "BTC"
  { s with
    ticker := ticker,
    messages := s.messages ++
      [{ role := "agent", agent := "ai_ticker_extraction",
         content := "AI extracted ticker: " ++ ticker ++ " from input: \x27"
           ++ last_user_input s ++ "\x27",
         timestamp := now }] }

/-- The per-asset warning list of the Validator as the specification words
it: a stablecoin warning if the asset's catalog sectors include Stablecoin,
then a low-confidence warning if its confidence is strictly below the 0.85
threshold, then a meme-risk warning if its sectors include Meme; the rules
accumulate and are not mutually exclusive. -/
def warnings_per_asset_spec (asset : ExtractedAsset) : List String :=
  (if is_stablecoin asset.ticker then
    ["Stablecoin detected: " ++ asset.ticker ++ " - Technical analysis may not be meaningful"]
   else [])
  ++ (if asset.confidence < dec2 85 then
    ["Low confidence in " ++ asset.ticker ++ ": " ++ toString asset.confidence]
   else [])
  ++ (match get_asset_by_ticker asset.ticker with
      | some info =>
          if info.sectors.contains "Meme" then
            ["Meme coin detected: " ++ asset.ticker ++ " - High volatility expected"]
          else []
      | none => [])

/-- The Validator output as the specification words it: the per-asset
warning lists concatenated in resolution order. -/
def validation_warnings_spec (assets : List ExtractedAsset) : List String :=
  assets.flatMap warnings_per_asset_spec

/-- A typical freshly initialized request state: empty analysis fields and
a single user message, as built by the demo drivers. -/
def sample_request_state : GlobalState :=
  { messages := [{ role := "user", agent := "",
                   content := "Analyze my portfolio",
                   timestamp := "2024-01-01T00:00:00Z" }] }

/-- A request state after a successful extraction of USDT (a stablecoin)
and PEPE (a meme coin below the confidence threshold). -/
def sample_extracted_state : GlobalState :=
  { sample_request_state with
    extracted_assets :=
      [ { ticker := "USDT", name := "Tether", confidence := dec2 96 },
        { ticker := "PEPE", name := "Pepe", confidence := dec2 80 } ] }

/-- C3: evaluation of the sector accessor at the keys of the SectorIndex.
The accessor upper-cases its argument, but only the key `"AI"` is written
in upper case, so `assetsInSector` returns the member list for `"AI"` and
the empty list for every mixed-case key — `"DeFi"`, `"Meme"`,
`"Stablecoin"`, … — even though those keys are present in
`SECTOR_MAPPINGS` with non-empty member lists. -/
theorem get_assets_by_sector_upper_mismatch :
    alistGet SECTOR_MAPPINGS "DeFi" = some ["AAVE", "COMP", "SUSHI", "UNI"] ∧
    get_assets_by_sector "DeFi" = [] ∧
    alistGet SECTOR_MAPPINGS "Meme" = some ["PEPE", "DOGE", "SHIB"] ∧
    get_assets_by_sector "Meme" = [] ∧
    get_assets_by_sector "Stablecoin" = [] ∧
    get_assets_by_sector "AI" = ["FET", "NEAR", "RNDR", "OCEAN", "AGIX"] := by
  decide

/-- C5 (counterexample): the claim omits the Meme rule.  DOGE sits in the
catalog with confidence 0.85 and sector Meme; at confidence 0.90 — at
least the 0.85 threshold, no ambiguity signal, no fallback, no sector
request — `should_trigger_hitl` still returns `true`, because the asset's
sectors include Meme. -/
theorem should_trigger_hitl_meme_counterexample :
    get_asset_by_ticker "DOGE" =
      some { name := "Dogecoin", aliases := ["dogecoin", "doge"],
             confidence := dec2 85, sectors := ["Meme"] } ∧
    get_confidence_threshold ≤ dec2 90 ∧
    should_trigger_hitl (dec2 90)
      { name := "Dogecoin", aliases := ["dogecoin", "doge"],
        confidence := dec2 85, sectors := ["Meme"] } = true := by
  decide

/-- C5 (amended): for a confidence at least the 0.85 threshold, an asset
whose catalog sectors do not include Meme, and no ambiguity signal (no
`collision_candidates` key), the HITL trigger returns `false`.  (The
function takes no fallback-path or sector-request input at all.) -/
theorem should_trigger_hitl_false_when_confident (c : ℚ) (info : AssetInfo)
    (h1 : get_confidence_threshold ≤ c)
    (h2 : info.sectors.contains "Meme" = false)
    (h3 : info.collision_candidates = none) :
    should_trigger_hitl c info = false := by
  have h2m : "Meme" ∉ info.sectors := by simpa using h2
  simp [should_trigger_hitl, not_lt.mpr h1, h2m, h3]

/-- C5 (witness): BTC's catalog entry at confidence 0.99 triggers no
review. -/
theorem should_trigger_hitl_false_when_confident_witness :
    get_confidence_threshold ≤ dec2 99 ∧
    should_trigger_hitl (dec2 99)
      { name := "Bitcoin", aliases := ["bitcoin", "btc", "king", "king of crypto"],
        confidence := dec2 99 } = false :=
  ⟨by decide,
   should_trigger_hitl_false_when_confident (dec2 99)
     { name := "Bitcoin", aliases := ["bitcoin", "btc", "king", "king of crypto"],
       confidence := dec2 99 }
     (by decide) (by decide) (by decide)⟩

/-- C7 (counterexample): `"solana"` is a key of the MisspellingIndex,
mapped to SOL, but the resolver returns the BTC fallback (it never
consults the index; `"solana"` contains none of the eight hard-coded
tickers as a substring).  No confidence is produced at all. -/
theorem misspelling_resolution_counterexample :
    alistGet MISSPELLINGS "solana" = some "SOL" ∧
    extract_ticker_from_text "solana" = "BTC" ∧
    ("BTC" : String) ≠ "SOL" := by
  decide

/-- C7 (amended): the deterministic resolver never consults the
MisspellingIndex and returns a bare ticker without a confidence; on the
fourteen misspelling keys its output coincides with the index's target
exactly for `etherium`, `bitcon`, `polkadot`, `chainlink` and `uniswap`
(via the substring scan of the eight hard-coded tickers, or the BTC
fallback in the case of `bitcon`), and on every other key it returns the
BTC fallback instead of the mapped ticker. -/
theorem misspelling_resolution_partial :
    (MISSPELLINGS.filter (fun p => extract_ticker_from_text p.1 == p.2)).map (·.1) =
      ["etherium", "bitcon", "polkadot", "chainlink", "uniswap"] ∧
    ∀ p ∈ MISSPELLINGS,
      extract_ticker_from_text p.1 = p.2 ∨ extract_ticker_from_text p.1 = "BTC" := by
  exact ⟨by decide, by decide⟩

/-- C7 (witness): the amended theorem applied to the key `"litecoin"`,
whose target LTC is not recovered. -/
theorem misspelling_resolution_partial_witness :
    extract_ticker_from_text "litecoin" = "LTC" ∨
    extract_ticker_from_text "litecoin" = "BTC" :=
  misspelling_resolution_partial.2 ("litecoin", "LTC") (by decide)

/-- C8 (counterexample): `"cardano"` is an exact alias of the cataloged
asset ADA, yet the resolver returns the BTC fallback — it matches only
the eight hard-coded tickers by substring and never consults the alias
sets, and it returns no confidence. -/
theorem alias_resolution_counterexample :
    (get_asset_by_ticker "ADA").map (fun a => a.aliases.contains "cardano") = some true ∧
    extract_ticker_from_text "cardano" = "BTC" ∧
    ("BTC" : String) ≠ "ADA" := by
  decide

/-- C8 (amended): for every input text, the resolver returns a member of
the eight-ticker `common_tickers` list; a non-fallback result's lowercase
form occurs as a substring of the lowercased text, and if no ticker of the
list occurs as a substring the result is the BTC fallback.  Catalog
aliases play no role and no confidence is attached. -/
theorem resolver_substring_characterization (text : String) :
    extract_ticker_from_text text ∈ common_tickers ∧
    (extract_ticker_from_text text ≠ "BTC" →
      pyContains (pyLower text) (pyLower (extract_ticker_from_text text)) = true) ∧
    ((∀ t ∈ common_tickers, pyContains (pyLower text) (pyLower t) = false) →
      extract_ticker_from_text text = "BTC") := by
  unfold extract_ticker_from_text
  cases hf : common_tickers.find? (fun t => pyContains (pyLower text) (pyLower t)) with
  | none =>
      refine ⟨by decide, fun h => absurd rfl h, fun _ => rfl⟩
  | some t =>
      have ht : t ∈ common_tickers := List.mem_of_find?_eq_some hf
      have hp0 :=
        @List.find?_some String (fun u => pyContains (pyLower text) (pyLower u))
          t common_tickers hf
      have hp : pyContains (pyLower text) (pyLower t) = true := hp0
      refine ⟨ht, fun _ => hp, fun hall => ?_⟩
      exact absurd hp (by simp [hall t ht])

/-- C8 (witness): the amended theorem at the text "i love chainlink",
which resolves to LINK with the substring condition holding. -/
theorem resolver_substring_characterization_witness :
    extract_ticker_from_text "i love chainlink" ∈ common_tickers ∧
    pyContains (pyLower "i love chainlink")
      (pyLower (extract_ticker_from_text "i love chainlink")) = true :=
  ⟨(resolver_substring_characterization "i love chainlink").1,
   (resolver_substring_characterization "i love chainlink").2.1 (by decide)⟩

/-- C9: a catalog lookup miss (no catalog ticker matches the upper-cased
argument) yields the empty dict for `get_asset_by_ticker` and `False` for
`is_stablecoin`, and a sector-index miss yields the empty list for
`get_assets_by_sector`.  The accessors are total functions: no input
raises an exception. -/
theorem unknown_lookup_yields_empty (t s : String)
    (ht : alistGet CRYPTO_ASSETS (pyUpper t) = none)
    (hs : alistGet SECTOR_MAPPINGS (pyUpper s) = none) :
    get_asset_by_ticker t = none ∧
    is_stablecoin t = false ∧
    get_assets_by_sector s = [] := by
  refine ⟨ht, ?_, ?_⟩
  · simp [is_stablecoin, get_asset_by_ticker, ht]
  · simp [get_assets_by_sector, hs]

/-- C9 (witness): the unknown ticker XRP and the unknown sector Privacy. -/
theorem unknown_lookup_yields_empty_witness :
    alistGet CRYPTO_ASSETS (pyUpper "XRP") = none ∧
    alistGet SECTOR_MAPPINGS (pyUpper "Privacy") = none ∧
    (get_asset_by_ticker "XRP" = none ∧
     is_stablecoin "XRP" = false ∧
     get_assets_by_sector "Privacy" = []) :=
  ⟨by decide, by decide,
   unknown_lookup_yields_empty "XRP" "Privacy" (by decide) (by decide)⟩

/-- C10: the ticker validity check accepts exactly the 15 values of the
legacy `CRYPTO_TICKERS` mapping, not the 34-entry Asset Catalog: USDT,
DOGE and AAVE are catalog assets that `is_valid_ticker` rejects, and the
AI ticker-extraction stage therefore replaces the extracted catalog-valid
ticker USDT by the BTC fallback. -/
theorem is_valid_ticker_legacy_only :
    get_available_tickers =
      ["BTC", "ETH", "ADA", "DOT", "LINK", "UNI", "LTC", "BCH",
       "SOL", "MATIC", "AVAX", "ATOM", "ALGO", "XLM", "VET"] ∧
    (∀ t : String, is_valid_ticker t = true ↔ t ∈ get_available_tickers) ∧
    is_valid_ticker "USDT" = false ∧
    is_valid_ticker "DOGE" = false ∧
    is_valid_ticker "AAVE" = false ∧
    (alistGet CRYPTO_ASSETS "USDT").isSome = true ∧
    (alistGet CRYPTO_ASSETS "DOGE").isSome = true ∧
    (alistGet CRYPTO_ASSETS "AAVE").isSome = true ∧
    (ai_ticker_extraction_agent (.ok "USDT") "2024-01-01T00:00:00Z"
      sample_request_state).ticker = "BTC" := by
  refine ⟨by decide, fun t => ?_, by decide, by decide, by decide,
          by decide, by decide, by decide, by decide⟩
  simp [is_valid_ticker]

/-- C10 (witness): the membership characterization applied to BTC. -/
theorem is_valid_ticker_legacy_only_witness :
    is_valid_ticker "BTC" = true ↔ "BTC" ∈ get_available_tickers :=
  is_valid_ticker_legacy_only.2.1 "BTC"

/-- C1 (counterexample): the success path of the extraction stage stores
the extractor's asset list verbatim.  A response whose `extracted_assets`
is empty leaves an empty resolved-asset list in state, and a response
naming a ticker absent from the Asset Catalog is stored unvalidated —
refuting both halves of the claimed guarantee. -/
theorem extraction_asset_list_counterexample :
    (enhanced_asset_extraction_agent (.ok {}) "2024-01-01T00:00:00Z"
      sample_request_state).extracted_assets = [] ∧
    (enhanced_asset_extraction_agent
      (.ok { extracted_assets := [{ ticker := "FAKECOIN", confidence := 1 }] })
      "2024-01-01T00:00:00Z" sample_request_state).extracted_assets =
      [{ ticker := "FAKECOIN", name := "", confidence := 1 }] ∧
    get_asset_by_ticker "FAKECOIN" = none :=
  ⟨rfl, rfl, by decide⟩

/-- C1 (amended): on the failure path the stage stores exactly the single
fallback entry BTC with confidence 0.5 and primary ticker BTC; on the
success path it stores the extractor's returned list verbatim, with no
catalog validation and no non-emptiness guarantee. -/
theorem extraction_asset_list_behavior (e : String) (d : AssetData)
    (now : String) (s : GlobalState) :
    (enhanced_asset_extraction_agent (.error e) now s).extracted_assets = [fallback_asset] ∧
    fallback_asset = { ticker := "BTC", name := "Bitcoin", confidence := dec2 50 } ∧
    (enhanced_asset_extraction_agent (.error e) now s).ticker = "BTC" ∧
    (enhanced_asset_extraction_agent (.ok d) now s).extracted_assets = d.extracted_assets :=
  ⟨rfl, rfl, rfl, rfl⟩

/-- C1 (witness): the amended theorem at a failing extraction and an empty
successful response over the sample request state. -/
theorem extraction_asset_list_behavior_witness :
    (enhanced_asset_extraction_agent (.error "boom") "2024-01-01T00:00:00Z"
      sample_request_state).extracted_assets = [fallback_asset] ∧
    fallback_asset = { ticker := "BTC", name := "Bitcoin", confidence := dec2 50 } ∧
    (enhanced_asset_extraction_agent (.error "boom") "2024-01-01T00:00:00Z"
      sample_request_state).ticker = "BTC" ∧
    (enhanced_asset_extraction_agent (.ok {}) "2024-01-01T00:00:00Z"
      sample_request_state).extracted_assets = AssetData.extracted_assets {} :=
  extraction_asset_list_behavior "boom" {} "2024-01-01T00:00:00Z" sample_request_state

/-- C4 (counterexample): on the success path the HITL decision is copied
verbatim from the extractor's response, so a response with
`hitl_required = true` and no reason leaves `requires_review = true` with
an empty reason code — violating the claimed iff-invariant. -/
theorem hitl_invariant_counterexample :
    (enhanced_asset_extraction_agent (.ok { hitl_required := true })
      "2024-01-01T00:00:00Z" sample_request_state).hitl_required = true ∧
    (enhanced_asset_extraction_agent (.ok { hitl_required := true })
      "2024-01-01T00:00:00Z" sample_request_state).hitl_reason = "" :=
  ⟨rfl, rfl⟩

/-- C4 (amended): on the failure path the stage sets
`requires_review = true` with reason `extraction_error`, so the invariant
`requires_review ↔ reason ≠ none` holds there; on the success path both
fields are copied verbatim from the extractor's response (defaults `false`
and the empty string), so the invariant holds exactly when the response
itself satisfies it. -/
theorem hitl_invariant_paths (e : String) (d : AssetData)
    (now : String) (s : GlobalState) :
    ((enhanced_asset_extraction_agent (.error e) now s).hitl_required = true ∧
     (enhanced_asset_extraction_agent (.error e) now s).hitl_reason = "extraction_error" ∧
     ((enhanced_asset_extraction_agent (.error e) now s).hitl_required = true ↔
      (enhanced_asset_extraction_agent (.error e) now s).hitl_reason ≠ "")) ∧
    (enhanced_asset_extraction_agent (.ok d) now s).hitl_required = d.hitl_required ∧
    (enhanced_asset_extraction_agent (.ok d) now s).hitl_reason = d.hitl_reason := by
  refine ⟨⟨rfl, rfl, ?_⟩, rfl, rfl⟩
  constructor
  · intro _
    show ("extraction_error" : String) ≠ ""
    decide
  · intro _
    rfl

/-- C4 (witness): the amended theorem at a failing extraction and the
default successful response over the sample request state. -/
theorem hitl_invariant_paths_witness :
    ((enhanced_asset_extraction_agent (.error "boom") "2024-01-01T00:00:00Z"
       sample_request_state).hitl_required = true ∧
     (enhanced_asset_extraction_agent (.error "boom") "2024-01-01T00:00:00Z"
       sample_request_state).hitl_reason = "extraction_error" ∧
     ((enhanced_asset_extraction_agent (.error "boom") "2024-01-01T00:00:00Z"
        sample_request_state).hitl_required = true ↔
      (enhanced_asset_extraction_agent (.error "boom") "2024-01-01T00:00:00Z"
        sample_request_state).hitl_reason ≠ "")) ∧
    (enhanced_asset_extraction_agent (.ok {}) "2024-01-01T00:00:00Z"
      sample_request_state).hitl_required = AssetData.hitl_required {} ∧
    (enhanced_asset_extraction_agent (.ok {}) "2024-01-01T00:00:00Z"
      sample_request_state).hitl_reason = AssetData.hitl_reason {} :=
  hitl_invariant_paths "boom" {} "2024-01-01T00:00:00Z" sample_request_state

/-- One iteration of the validation loop equals the per-asset warning list
of the specification appended to the accumulator. -/
theorem validation_step_eq (acc : List String) (asset : ExtractedAsset) :
    validation_step acc asset = acc ++ warnings_per_asset_spec asset := by
  simp only [validation_step, warnings_per_asset_spec]
  cases h2 : get_asset_by_ticker asset.ticker with
  | none => split_ifs <;> simp_all [List.append_assoc]
  | some info => split_ifs <;> simp_all [List.append_assoc]

/-- The validation loop over any asset list, from any accumulator, appends
the concatenated per-asset warning lists. -/
theorem validation_warnings_foldl (l : List ExtractedAsset) :
    ∀ acc : List String, l.foldl validation_step acc = acc ++ validation_warnings_spec l := by
  induction l with
  | nil =>
      intro acc
      simp [validation_warnings_spec]
  | cons a t ih =>
      intro acc
      simp [List.foldl_cons, validation_step_eq, ih, validation_warnings_spec,
        List.append_assoc]

/-- C6: the validation stage produces exactly the warnings the spec
describes — iterating assets in resolution order, a stablecoin warning
when the catalog sectors include Stablecoin, a low-confidence warning when
confidence is strictly below 0.85, and a meme-risk warning when the
sectors include Meme, accumulating non-exclusively in that per-asset
order. -/
theorem validation_stage_warnings (now : String) (s : GlobalState) :
    (asset_validation_agent now s).asset_warnings =
      validation_warnings_spec s.extracted_assets := by
  simp [asset_validation_agent, validation_warnings_foldl]

/-- C6 (witness): the validation stage on a state holding USDT (stablecoin
warning) and PEPE (low-confidence and meme warnings). -/
theorem validation_stage_warnings_witness :
    (asset_validation_agent "2024-01-01T00:00:00Z" sample_extracted_state).asset_warnings =
      validation_warnings_spec sample_extracted_state.extracted_assets :=
  validation_stage_warnings "2024-01-01T00:00:00Z" sample_extracted_state

/-- C2: each of the eight stages of the enhanced pipeline — and the AI
ticker-extraction stage — appends exactly one entry to the message log of
any input state, whatever the external extractor returned: the log after
the stage is the untouched previous log followed by a single new entry, so
the prior entries survive unchanged, in order, as a prefix. -/
theorem stages_append_one_message (now : String) (s : GlobalState)
    (resp : Except String AssetData) (raw : Except String String) :
    (∃ m, (enhanced_asset_extraction_agent resp now s).messages = s.messages ++ [m]) ∧
    (∃ m, (asset_validation_agent now s).messages = s.messages ++ [m]) ∧
    (∃ m, (human_in_the_loop_agent now s).messages = s.messages ++ [m]) ∧
    (∃ m, (price_retrieval_agent now s).messages = s.messages ++ [m]) ∧
    (∃ m, (technical_analysis_agent now s).messages = s.messages ++ [m]) ∧
    (∃ m, (news_retrieval_agent now s).messages = s.messages ++ [m]) ∧
    (∃ m, (sentiment_analysis_agent now s).messages = s.messages ++ [m]) ∧
    (∃ m, (comprehensive_reporter_agent now s).messages = s.messages ++ [m]) ∧
    (∃ m, (ai_ticker_extraction_agent raw now s).messages = s.messages ++ [m]) := by
  refine ⟨?_, ⟨_, rfl⟩, ?_, ⟨_, rfl⟩, ⟨_, rfl⟩, ⟨_, rfl⟩, ⟨_, rfl⟩, ⟨_, rfl⟩, ?_⟩
  · cases resp with
    | ok d => exact ⟨_, rfl⟩
    | error e => exact ⟨_, rfl⟩
  · unfold human_in_the_loop_agent
    split
    · exact ⟨_, rfl⟩
    · exact ⟨_, rfl⟩
  · cases raw with
    | ok r => exact ⟨_, rfl⟩
    | error e => exact ⟨_, rfl⟩

/-- C2 (witness): the append-only property at the sample request state,
with a failing extraction response and a failing AI reply. -/
theorem stages_append_one_message_witness :
    (∃ m, (enhanced_asset_extraction_agent (.error "boom") "2024-01-01T00:00:00Z"
      sample_request_state).messages = sample_request_state.messages ++ [m]) ∧
    (∃ m, (asset_validation_agent "2024-01-01T00:00:00Z"
      sample_request_state).messages = sample_request_state.messages ++ [m]) ∧
    (∃ m, (human_in_the_loop_agent "2024-01-01T00:00:00Z"
      sample_request_state).messages = sample_request_state.messages ++ [m]) ∧
    (∃ m, (price_retrieval_agent "2024-01-01T00:00:00Z"
      sample_request_state).messages = sample_request_state.messages ++ [m]) ∧
    (∃ m, (technical_analysis_agent "2024-01-01T00:00:00Z"
      sample_request_state).messages = sample_request_state.messages ++ [m]) ∧
    (∃ m, (news_retrieval_agent "2024-01-01T00:00:00Z"
      sample_request_state).messages = sample_request_state.messages ++ [m]) ∧
    (∃ m, (sentiment_analysis_agent "2024-01-01T00:00:00Z"
      sample_request_state).messages = sample_request_state.messages ++ [m]) ∧
    (∃ m, (comprehensive_reporter_agent "2024-01-01T00:00:00Z"
      sample_request_state).messages = sample_request_state.messages ++ [m]) ∧
    (∃ m, (ai_ticker_extraction_agent (.error "down") "2024-01-01T00:00:00Z"
      sample_request_state).messages = sample_request_state.messages ++ [m]) :=
  stages_append_one_message "2024-01-01T00:00:00Z" sample_request_state
    (.error "boom") (.error "down")

end CryptoAnalyst
